import Mathlib

/-!
Verification of the client-side logic of the Sunhacks25 repository: two
structurally identical React panels (RecipeGenerator in
src/unnamed/part_000 and MenuAnalyzer in src/src/components/MenuAnalyzer.tsx).
Each panel keeps a list of free-text items, an input field, an optional
modifier field, an optional parsed response, a loading flag and an error
string.  The embedding below translates the panels' handler functions
(addIngredient / addMenuItem, removeIngredient / removeMenuItem,
generateRecipe / analyzeMenu, getScoreColor / getScoreIcon) into pure Lean
functions.  The single network call is modelled by an injected outcome
(`NetOutcome`): axios rejects on network errors, non-2xx statuses,
timeouts and parse failures, all of which land in the `catch` branch and
are collapsed into the one `failure` constructor.  JSX icon components of
the menu panel are embedded by their component name as a string.
-/

set_option autoImplicit false

namespace Sunhacks

/-- Outcome of the awaited HTTP POST: `success r` is a 2xx response whose
parsed body is `r`; `failure` is any rejection (network error, non-2xx,
timeout, parse error), which the source handles in a single catch block. -/
inductive NetOutcome (α : Type) where
  | success (r : α)
  | failure
deriving DecidableEq, Repr

/-- Embedding of JavaScript `String.prototype.trim()`: drop the whitespace
characters from both ends of the string.  Defined on the string's character
list so that concrete inputs evaluate inside the kernel. -/
def jsTrim (s : String) : String :=
  ⟨((s.data.dropWhile Char.isWhitespace).reverse.dropWhile
      Char.isWhitespace).reverse⟩

/-- Helper for `filterIdxNe`: walks the list carrying the position `n` of the
head, keeping exactly the elements whose position differs from `index`. -/
def filterIdxNeAux (index : Int) : Nat → List String → List String
  | _, [] => []
  | n, x :: xs =>
    if (n : Int) ≠ index then x :: filterIdxNeAux index (n + 1) xs
    else filterIdxNeAux index (n + 1) xs

/-- Embedding of the JavaScript array idiom `arr.filter((_, i) => i !== index)`
used by removeIngredient and removeMenuItem: keep exactly the elements whose
position differs from `index`.  The index is an `Int`, as in JS any number
(negative included) can be passed. -/
def filterIdxNe (l : List String) (index : Int) : List String :=
  filterIdxNeAux index 0 l

/-! ## Recipe panel (RecipeGenerator, src/unnamed/part_000) -/

/-- Shape of the `/generate-recipe` JSON response (interface RecipeResponse). -/
structure RecipeResponse where
  recipe_name : String
  ingredients : List String
  instructions : List String
  calories : Int
  eco_tip : String
  eco_score : String
  health_score : String
  prep_time : String
  difficulty : String
deriving DecidableEq, Repr

/-- The recipe panel's React state: the six useState hooks of RecipeGenerator. -/
structure RecipeState where
  ingredients : List String
  newIngredient : String
  dietaryPreferences : String
  recipe : Option RecipeResponse
  loading : Bool
  error : String
deriving DecidableEq, Repr

/-- Initial state of the recipe panel (the useState initial values). -/
def recipeInit : RecipeState :=
  { ingredients := [], newIngredient := "", dietaryPreferences := ""
    recipe := none, loading := false, error := "" }

/-- Embedding of addIngredient: if the trimmed input is non-empty (JS
truthiness of a string) and not already included (exact match), append it
and clear the input; otherwise do nothing. -/
def addIngredient (s : RecipeState) : RecipeState :=
  if jsTrim s.newIngredient ≠ "" ∧ jsTrim s.newIngredient ∉ s.ingredients then
    { s with ingredients := s.ingredients ++ [jsTrim s.newIngredient]
             newIngredient := "" }
  else s

/-- Embedding of removeIngredient: `ingredients.filter((_, i) => i !== index)`. -/
def removeIngredient (s : RecipeState) (index : Int) : RecipeState :=
  { s with ingredients := filterIdxNe s.ingredients index }

/-- Outbound body of the recipe panel's POST.  `dietary_preferences` is a JSON
value that is either a string or null (`dietaryPreferences || null` in the
source), embedded as `Option String`. -/
structure RecipeRequest where
  url : String
  ingredients : List String
  dietary_preferences : Option String
deriving DecidableEq, Repr

/-- Validation message of the recipe panel. -/
def recipeValidationMsg : String := "Please add at least one ingredient"

/-- Generic failure message of the recipe panel. -/
def recipeFailureMsg : String := "Failed to generate recipe. Please try again."

/-- Synchronous first half of generateRecipe, up to and including issuing the
POST: the empty-items guard, then setLoading(true), setError(''),
setRecipe(null) and the axios.post call.  Returns the state at the moment the
request is in flight together with the request issued (`none` when the guard
returned early and no request was made). -/
def generateRecipeStart (s : RecipeState) :
    RecipeState × Option RecipeRequest :=
  if s.ingredients.length = 0 then
    ({ s with error := recipeValidationMsg }, none)
  else
    ({ s with loading := true, error := "", recipe := none },
     some { url := "http://localhost:8001" ++ "/generate-recipe"
            ingredients := s.ingredients
            dietary_preferences :=
              if s.dietaryPreferences = "" then none
              else some s.dietaryPreferences })

/-- Second half of generateRecipe: the resolution of the awaited POST.  On
success the parsed body is stored; on any rejection the catch block sets the
generic error message; the finally block clears the loading flag. -/
def generateRecipeFinish (s : RecipeState) (net : NetOutcome RecipeResponse) :
    RecipeState :=
  match net with
  | .success r => { s with recipe := some r, loading := false }
  | .failure => { s with error := recipeFailureMsg, loading := false }

/-- A whole run of generateRecipe under network outcome `net`: the final state
and the request issued, if any. -/
def generateRecipe (s : RecipeState) (net : NetOutcome RecipeResponse) :
    RecipeState × Option RecipeRequest :=
  match generateRecipeStart s with
  | (s1, none) => (s1, none)
  | (s1, some req) => (generateRecipeFinish s1 net, some req)

/-- Embedding of the recipe panel's getScoreColor switch. -/
def getScoreColor (score : String) : String :=
  if score = "green" then "text-green-600 bg-green-100"
  else if score = "yellow" then "text-yellow-600 bg-yellow-100"
  else if score = "red" then "text-red-600 bg-red-100"
  else "text-gray-600 bg-gray-100"

/-- Embedding of the recipe panel's getScoreIcon switch. -/
def getScoreIcon (score : String) : String :=
  if score = "green" then "✅"
  else if score = "yellow" then "⚠️"
  else if score = "red" then "⚠️"
  else "❓"

/-! ## Menu panel (MenuAnalyzer, src/src/components/MenuAnalyzer.tsx) -/

/-- One record of `menu_items_analysis` in the analysis response. -/
structure MenuItemAnalysis where
  item : String
  eco_rating : String
  suggestion : String
deriving DecidableEq, Repr

/-- Shape of the `/restaurant-analysis` JSON response
(interface MenuAnalysisResponse). -/
structure MenuAnalysisResponse where
  restaurant_name : String
  eco_analysis : String
  recommendations : List String
  overall_eco_score : String
  menu_items_analysis : List MenuItemAnalysis
deriving DecidableEq, Repr

/-- The menu panel's React state: the six useState hooks of MenuAnalyzer. -/
structure MenuState where
  menuItems : List String
  newMenuItem : String
  restaurantName : String
  analysis : Option MenuAnalysisResponse
  loading : Bool
  error : String
deriving DecidableEq, Repr

/-- Initial state of the menu panel. -/
def menuInit : MenuState :=
  { menuItems := [], newMenuItem := "", restaurantName := ""
    analysis := none, loading := false, error := "" }

/-- Embedding of addMenuItem (identical in shape to addIngredient). -/
def addMenuItem (s : MenuState) : MenuState :=
  if jsTrim s.newMenuItem ≠ "" ∧ jsTrim s.newMenuItem ∉ s.menuItems then
    { s with menuItems := s.menuItems ++ [jsTrim s.newMenuItem]
             newMenuItem := "" }
  else s

/-- Embedding of removeMenuItem: `menuItems.filter((_, i) => i !== index)`. -/
def removeMenuItem (s : MenuState) (index : Int) : MenuState :=
  { s with menuItems := filterIdxNe s.menuItems index }

/-- Outbound body of the menu panel's POST.  `restaurant_name` is a JSON value
that could in principle be a string or null; the source computes
`restaurantName || 'Restaurant'`, which is always a string, embedded as
`some _`. -/
structure MenuRequest where
  url : String
  menu_items : List String
  restaurant_name : Option String
deriving DecidableEq, Repr

/-- Validation message of the menu panel. -/
def menuValidationMsg : String := "Please add at least one menu item"

/-- Generic failure message of the menu panel. -/
def menuFailureMsg : String := "Failed to analyze menu. Please try again."

/-- Synchronous first half of analyzeMenu, mirroring generateRecipeStart. -/
def analyzeMenuStart (s : MenuState) : MenuState × Option MenuRequest :=
  if s.menuItems.length = 0 then
    ({ s with error := menuValidationMsg }, none)
  else
    ({ s with loading := true, error := "", analysis := none },
     some { url := "http://localhost:8001" ++ "/restaurant-analysis"
            menu_items := s.menuItems
            restaurant_name :=
              some (if s.restaurantName = "" then "Restaurant"
                    else s.restaurantName) })

/-- Second half of analyzeMenu: resolution of the awaited POST. -/
def analyzeMenuFinish (s : MenuState) (net : NetOutcome MenuAnalysisResponse) :
    MenuState :=
  match net with
  | .success r => { s with analysis := some r, loading := false }
  | .failure => { s with error := menuFailureMsg, loading := false }

/-- A whole run of analyzeMenu under network outcome `net`. -/
def analyzeMenu (s : MenuState) (net : NetOutcome MenuAnalysisResponse) :
    MenuState × Option MenuRequest :=
  match analyzeMenuStart s with
  | (s1, none) => (s1, none)
  | (s1, some req) => (analyzeMenuFinish s1 net, some req)

/-- Embedding of the menu panel's getScoreColor switch (textually identical to
the recipe panel's). -/
def menuGetScoreColor (score : String) : String :=
  if score = "green" then "text-green-600 bg-green-100"
  else if score = "yellow" then "text-yellow-600 bg-yellow-100"
  else if score = "red" then "text-red-600 bg-red-100"
  else "text-gray-600 bg-gray-100"

/-- Embedding of the menu panel's getScoreIcon switch; the JSX icon components
are embedded by their lucide-react component names. -/
def menuGetScoreIcon (score : String) : String :=
  if score = "green" then "CheckCircle"
  else if score = "yellow" then "AlertCircle"
  else if score = "red" then "XCircle"
  else "AlertCircle"

/-! ## User-level operations and reachability

The handlers a user can trigger on a panel: typing into the item input
(onChange of the text input), typing into the modifier input, clicking the
add button (or pressing Enter), clicking a remove button, and clicking the
submit button with the network resolving to a given outcome. -/

/-- One user-level operation on the recipe panel. -/
inductive RecipeOp where
  | setInput (v : String)
  | setPrefs (v : String)
  | add
  | remove (i : Int)
  | submit (net : NetOutcome RecipeResponse)
deriving Repr

/-- Effect of one recipe-panel operation on the panel state. -/
def recipeStep (s : RecipeState) (op : RecipeOp) : RecipeState :=
  match op with
  | .setInput v => { s with newIngredient := v }
  | .setPrefs v => { s with dietaryPreferences := v }
  | .add => addIngredient s
  | .remove i => removeIngredient s i
  | .submit net => (generateRecipe s net).1

/-- The recipe-panel state reached from the initial state by a list of
operations. -/
def recipeRun (ops : List RecipeOp) : RecipeState :=
  ops.foldl recipeStep recipeInit

/-- One user-level operation on the menu panel. -/
inductive MenuOp where
  | setInput (v : String)
  | setName (v : String)
  | add
  | remove (i : Int)
  | submit (net : NetOutcome MenuAnalysisResponse)
deriving Repr

/-- Effect of one menu-panel operation on the panel state. -/
def menuStep (s : MenuState) (op : MenuOp) : MenuState :=
  match op with
  | .setInput v => { s with newMenuItem := v }
  | .setName v => { s with restaurantName := v }
  | .add => addMenuItem s
  | .remove i => removeMenuItem s i
  | .submit net => (analyzeMenu s net).1

/-- The menu-panel state reached from the initial state by a list of
operations. -/
def menuRun (ops : List MenuOp) : MenuState :=
  ops.foldl menuStep menuInit

/-! ## Rendered structure of the recipe result view

The success branch of RecipeGenerator's JSX renders each payload field; the
embedding keeps what the claims inspect: the score badges (color class and
icon), one list entry per ingredient, and one numbered entry per instruction
with number `index + 1`. -/

/-- A score badge as rendered: the color classes from getScoreColor and the
icon from getScoreIcon. -/
structure ScoreBadge where
  color : String
  icon : String
deriving DecidableEq, Repr

/-- The rendered recipe card. -/
structure RecipeView where
  name : String
  prepTime : String
  calories : Int
  difficulty : String
  ecoBadge : ScoreBadge
  healthBadge : ScoreBadge
  ecoTip : String
  ingredientEntries : List String
  instructionEntries : List (Nat × String)
deriving DecidableEq, Repr

/-- Embedding of the success-branch JSX of RecipeGenerator: ingredient `<li>`
entries come from `recipe.ingredients.map`, instruction entries from
`recipe.instructions.map` with the displayed number `index + 1`. -/
def renderRecipe (r : RecipeResponse) : RecipeView :=
  { name := r.recipe_name
    prepTime := r.prep_time
    calories := r.calories
    difficulty := r.difficulty
    ecoBadge := { color := getScoreColor r.eco_score
                  icon := getScoreIcon r.eco_score }
    healthBadge := { color := getScoreColor r.health_score
                     icon := getScoreIcon r.health_score }
    ecoTip := r.eco_tip
    ingredientEntries := r.ingredients
    instructionEntries := r.instructions.enum.map fun p => (p.1 + 1, p.2) }

/-- The mocked successful response named in the spec's testable properties. -/
def mockRecipe : RecipeResponse :=
  { recipe_name := "Veggie Stir Fry"
    ingredients := ["carrot", "broccoli"]
    instructions := ["Chop", "Cook"]
    calories := 320
    eco_tip := "Use scraps for stock"
    eco_score := "green"
    health_score := "yellow"
    prep_time := "20 min"
    difficulty := "Easy" }

/-! ## Derived panel status

The source keeps no explicit status field; the spec's `PanelState.status` is
derived from what the JSX displays: the loading flag gates the in-progress
text and disables the button, a non-empty error string displays the alert
region, a non-null result displays the result card. -/

/-- The spec's four-valued panel status. -/
inductive Status where
  | idle
  | loading
  | success
  | error
deriving DecidableEq, Repr

/-- Derived status of the recipe panel. -/
def recipeStatus (s : RecipeState) : Status :=
  if s.loading then .loading
  else if s.error ≠ "" then .error
  else if s.recipe.isSome then .success
  else .idle

/-- Derived status of the menu panel. -/
def menuStatus (s : MenuState) : Status :=
  if s.loading then .loading
  else if s.error ≠ "" then .error
  else if s.analysis.isSome then .success
  else .idle

/-! ## Concrete states used by witnesses and counterexamples -/

/-- Recipe-panel state with the pending input " carrot " and no items yet. -/
def c4RecFresh : RecipeState := { recipeInit with newIngredient := " carrot " }

/-- Recipe-panel state whose collection already holds "carrot" while the
pending input is " carrot ". -/
def c4RecDup : RecipeState :=
  { recipeInit with ingredients := ["carrot"], newIngredient := " carrot " }

/-- Menu-panel state with the pending input " fries " and no items yet. -/
def c4MenuFresh : MenuState := { menuInit with newMenuItem := " fries " }

/-- Menu-panel state whose collection already holds "fries" while the pending
input is " fries ". -/
def c4MenuDup : MenuState :=
  { menuInit with menuItems := ["fries"], newMenuItem := " fries " }

/-- Recipe-panel state holding one item. -/
def oneItemRec : RecipeState := { recipeInit with ingredients := ["tomato"] }

/-- Menu-panel state holding one item. -/
def oneItemMenu : MenuState := { menuInit with menuItems := ["burger"] }

/-- A concrete menu-analysis response used by witnesses. -/
def mockAnalysis : MenuAnalysisResponse :=
  { restaurant_name := "Cafe"
    eco_analysis := "ok"
    recommendations := ["compost"]
    overall_eco_score := "green"
    menu_items_analysis := [{ item := "burger", eco_rating := "red",
                              suggestion := "use beans" }] }

/-- Exclusivity invariant of the recipe panel: whenever a result is displayed,
the error string is empty or is the local validation message (the one message
that the code sets without clearing the result). -/
def RecipeResultErrorInv (s : RecipeState) : Prop :=
  s.recipe.isSome = true → s.error = "" ∨ s.error = recipeValidationMsg

/-- Exclusivity invariant of the menu panel, mirroring the recipe panel's. -/
def MenuResultErrorInv (s : MenuState) : Prop :=
  s.analysis.isSome = true → s.error = "" ∨ s.error = menuValidationMsg

/-- Operation list reaching a recipe-panel state that displays a result and a
non-empty error at once: a successful submission, removal of the only item,
then a submission that fails validation. -/
def c2BadOps : List RecipeOp :=
  [.setInput "x", .add, .submit (.success mockRecipe), .remove 0,
   .submit .failure]

/-- The menu-panel operation list mirroring `c2BadOps`. -/
def c2BadMenuOps : List MenuOp :=
  [.setInput "x", .add, .submit (.success mockAnalysis), .remove 0,
   .submit .failure]

/-- The request the recipe panel issues from `oneItemRec`. -/
def recReqW : RecipeRequest :=
  { url := "http://localhost:8001/generate-recipe"
    ingredients := ["tomato"]
    dietary_preferences := none }

/-- The request the menu panel issues from `oneItemMenu`. -/
def menuReqW : MenuRequest :=
  { url := "http://localhost:8001/restaurant-analysis"
    menu_items := ["burger"]
    restaurant_name := some "Restaurant" }

/-! ## Helper lemmas about the indexed filter -/

/-- Filtering by a position that lies outside the walked segment keeps every
element. -/
lemma filterIdxNeAux_of_out (index : Int) (l : List String) (n : Nat)
    (h : index < (n : Int) ∨ (n : Int) + l.length ≤ index) :
    filterIdxNeAux index n l = l := by
  induction l generalizing n with
  | nil => rfl
  | cons x xs ih =>
    have hne : (n : Int) ≠ index := by
      simp only [List.length_cons] at h
      push_cast at h
      omega
    rw [filterIdxNeAux, if_pos hne, ih (n + 1) (by
      simp only [List.length_cons] at h
      push_cast at h ⊢
      omega)]

/-- Filtering by a position inside the walked segment drops exactly the
element at that position. -/
lemma filterIdxNeAux_of_in (index : Int) (l : List String) (n : Nat)
    (h1 : (n : Int) ≤ index) (h2 : index < (n : Int) + l.length) :
    filterIdxNeAux index n l =
      l.take (index - n).toNat ++ l.drop ((index - n).toNat + 1) := by
  induction l generalizing n with
  | nil =>
    simp only [List.length_nil] at h2
    omega
  | cons x xs ih =>
    by_cases hn : (n : Int) = index
    · have h0 : (index - n).toNat = 0 := by omega
      rw [filterIdxNeAux, if_neg (by simpa using hn), h0]
      simpa using filterIdxNeAux_of_out index xs (n + 1) (Or.inl (by omega))
    · have hlt : (n : Int) < index := lt_of_le_of_ne h1 hn
      have hm : (index - n).toNat = (index - ((n : Int) + 1)).toNat + 1 := by
        omega
      rw [filterIdxNeAux, if_pos hn, ih (n + 1) (by push_cast; omega) (by
        simp only [List.length_cons] at h2
        push_cast at h2 ⊢
        omega)]
      rw [hm]
      push_cast
      rw [List.take_succ_cons, List.drop_succ_cons, List.cons_append]

/-! ## Claims about the item collectors -/

/-- C4: add(raw) trims raw, is a no-op if the trimmed string is empty or an
exactly equal item already exists, otherwise appends the trimmed string at the
end and clears the pending input field; adding the same trimmed string twice
yields a collection containing it once.  Stated for both panels
(addIngredient and addMenuItem). -/
theorem c4_add_contract (s : RecipeState) (m : MenuState) :
    (jsTrim s.newIngredient = "" ∨ jsTrim s.newIngredient ∈ s.ingredients →
      addIngredient s = s) ∧
    (jsTrim s.newIngredient ≠ "" → jsTrim s.newIngredient ∉ s.ingredients →
      addIngredient s =
        { s with ingredients := s.ingredients ++ [jsTrim s.newIngredient]
                 newIngredient := "" }) ∧
    (jsTrim s.newIngredient ≠ "" → jsTrim s.newIngredient ∉ s.ingredients →
      (addIngredient { addIngredient s with
          newIngredient := s.newIngredient }).ingredients.count
        (jsTrim s.newIngredient) = 1) ∧
    (jsTrim m.newMenuItem = "" ∨ jsTrim m.newMenuItem ∈ m.menuItems →
      addMenuItem m = m) ∧
    (jsTrim m.newMenuItem ≠ "" → jsTrim m.newMenuItem ∉ m.menuItems →
      addMenuItem m =
        { m with menuItems := m.menuItems ++ [jsTrim m.newMenuItem]
                 newMenuItem := "" }) ∧
    (jsTrim m.newMenuItem ≠ "" → jsTrim m.newMenuItem ∉ m.menuItems →
      (addMenuItem { addMenuItem m with
          newMenuItem := m.newMenuItem }).menuItems.count
        (jsTrim m.newMenuItem) = 1) := by
  refine ⟨?_, ?_, ?_, ?_, ?_, ?_⟩
  · intro h
    rw [addIngredient, if_neg]
    rintro ⟨h1, h2⟩
    rcases h with h | h
    · exact h1 h
    · exact h2 h
  · intro h1 h2
    rw [addIngredient, if_pos ⟨h1, h2⟩]
  · intro h1 h2
    have e1 : addIngredient s =
        { s with ingredients := s.ingredients ++ [jsTrim s.newIngredient]
                 newIngredient := "" } := by
      rw [addIngredient, if_pos ⟨h1, h2⟩]
    rw [e1, addIngredient, if_neg (by simp)]
    have h0 : s.ingredients.count (jsTrim s.newIngredient) = 0 :=
      List.count_eq_zero.2 h2
    simp [List.count_append, h0]
  · intro h
    rw [addMenuItem, if_neg]
    rintro ⟨h1, h2⟩
    rcases h with h | h
    · exact h1 h
    · exact h2 h
  · intro h1 h2
    rw [addMenuItem, if_pos ⟨h1, h2⟩]
  · intro h1 h2
    have e1 : addMenuItem m =
        { m with menuItems := m.menuItems ++ [jsTrim m.newMenuItem]
                 newMenuItem := "" } := by
      rw [addMenuItem, if_pos ⟨h1, h2⟩]
    rw [e1, addMenuItem, if_neg (by simp)]
    have h0 : m.menuItems.count (jsTrim m.newMenuItem) = 0 :=
      List.count_eq_zero.2 h2
    simp [List.count_append, h0]

/-- Witness for C4 at concrete inputs: the duplicate no-op, the appending add
and the add-twice-count-once conclusion, on both panels. -/
theorem c4_add_contract_witness :
    (jsTrim c4RecDup.newIngredient = "" ∨
      jsTrim c4RecDup.newIngredient ∈ c4RecDup.ingredients) ∧
    addIngredient c4RecDup = c4RecDup ∧
    jsTrim c4RecFresh.newIngredient ≠ "" ∧
    jsTrim c4RecFresh.newIngredient ∉ c4RecFresh.ingredients ∧
    addIngredient c4RecFresh = { recipeInit with ingredients := ["carrot"] } ∧
    (addIngredient { addIngredient c4RecFresh with
        newIngredient := c4RecFresh.newIngredient }).ingredients.count
      (jsTrim c4RecFresh.newIngredient) = 1 ∧
    (jsTrim c4MenuDup.newMenuItem = "" ∨
      jsTrim c4MenuDup.newMenuItem ∈ c4MenuDup.menuItems) ∧
    addMenuItem c4MenuDup = c4MenuDup ∧
    jsTrim c4MenuFresh.newMenuItem ≠ "" ∧
    jsTrim c4MenuFresh.newMenuItem ∉ c4MenuFresh.menuItems ∧
    addMenuItem c4MenuFresh = { menuInit with menuItems := ["fries"] } ∧
    (addMenuItem { addMenuItem c4MenuFresh with
        newMenuItem := c4MenuFresh.newMenuItem }).menuItems.count
      (jsTrim c4MenuFresh.newMenuItem) = 1 := by
  refine ⟨by decide, ?_, by decide, by decide, ?_, ?_, by decide, ?_, by decide,
    by decide, ?_, ?_⟩
  · exact (c4_add_contract c4RecDup menuInit).1 (Or.inr (by decide))
  · exact ((c4_add_contract c4RecFresh menuInit).2.1 (by decide)
      (by decide)).trans (by decide)
  · exact (c4_add_contract c4RecFresh menuInit).2.2.1 (by decide) (by decide)
  · exact (c4_add_contract recipeInit c4MenuDup).2.2.2.1 (Or.inr (by decide))
  · exact ((c4_add_contract recipeInit c4MenuFresh).2.2.2.2.1 (by decide)
      (by decide)).trans (by decide)
  · exact (c4_add_contract recipeInit c4MenuFresh).2.2.2.2.2 (by decide)
      (by decide)

/-- C5: remove(index) with an in-range index removes exactly the element at
that position (the list becomes the prefix before it followed by the suffix
after it, preserving relative order), an out-of-range index (negative or at
least the length) is a no-op leaving the whole state unchanged, and the
function is total so it never raises.  Stated for both panels. -/
theorem c5_remove_contract (s : RecipeState) (m : MenuState) (index : Int) :
    (0 ≤ index → index < (s.ingredients.length : Int) →
      removeIngredient s index =
        { s with ingredients :=
            s.ingredients.take index.toNat ++
              s.ingredients.drop (index.toNat + 1) }) ∧
    (index < 0 ∨ (s.ingredients.length : Int) ≤ index →
      removeIngredient s index = s) ∧
    (0 ≤ index → index < (m.menuItems.length : Int) →
      removeMenuItem m index =
        { m with menuItems :=
            m.menuItems.take index.toNat ++
              m.menuItems.drop (index.toNat + 1) }) ∧
    (index < 0 ∨ (m.menuItems.length : Int) ≤ index →
      removeMenuItem m index = m) := by
  refine ⟨?_, ?_, ?_, ?_⟩
  · intro h1 h2
    rw [removeIngredient, filterIdxNe,
      filterIdxNeAux_of_in index _ 0 (by push_cast; omega) (by push_cast; omega)]
    have : (index - ((0 : Nat) : Int)).toNat = index.toNat := by omega
    rw [this]
  · intro h
    rw [removeIngredient, filterIdxNe,
      filterIdxNeAux_of_out index _ 0 (by push_cast; omega)]
  · intro h1 h2
    rw [removeMenuItem, filterIdxNe,
      filterIdxNeAux_of_in index _ 0 (by push_cast; omega) (by push_cast; omega)]
    have : (index - ((0 : Nat) : Int)).toNat = index.toNat := by omega
    rw [this]
  · intro h
    rw [removeMenuItem, filterIdxNe,
      filterIdxNeAux_of_out index _ 0 (by push_cast; omega)]

/-- Witness for C5 at concrete inputs: an in-range removal at position 1 of a
three-element collection and no-op removals at index 5 and -1, on both
panels. -/
theorem c5_remove_contract_witness :
    (0 : Int) ≤ 1 ∧ (1 : Int) < ((["a", "b", "c"] : List String).length : Int) ∧
    removeIngredient { recipeInit with ingredients := ["a", "b", "c"] } 1
      = { recipeInit with ingredients := ["a", "c"] } ∧
    ((5 : Int) < 0 ∨ ((["a", "b", "c"] : List String).length : Int) ≤ 5) ∧
    removeIngredient { recipeInit with ingredients := ["a", "b", "c"] } 5
      = { recipeInit with ingredients := ["a", "b", "c"] } ∧
    (0 : Int) ≤ 1 ∧ (1 : Int) < ((["p", "q", "r"] : List String).length : Int) ∧
    removeMenuItem { menuInit with menuItems := ["p", "q", "r"] } 1
      = { menuInit with menuItems := ["p", "r"] } ∧
    ((-1 : Int) < 0 ∨ ((["p", "q", "r"] : List String).length : Int) ≤ -1) ∧
    removeMenuItem { menuInit with menuItems := ["p", "q", "r"] } (-1)
      = { menuInit with menuItems := ["p", "q", "r"] } := by
  refine ⟨by decide, by decide, ?_, by decide, ?_, by decide, by decide, ?_,
    by decide, ?_⟩
  · exact (c5_remove_contract { recipeInit with ingredients := ["a", "b", "c"] }
      menuInit 1).1 (by decide) (by decide)
  · exact (c5_remove_contract { recipeInit with ingredients := ["a", "b", "c"] }
      menuInit 5).2.1 (Or.inr (by decide))
  · exact (c5_remove_contract recipeInit
      { menuInit with menuItems := ["p", "q", "r"] } 1).2.2.1 (by decide) (by decide)
  · exact (c5_remove_contract recipeInit
      { menuInit with menuItems := ["p", "q", "r"] } (-1)).2.2.2 (Or.inl (by decide))

/-! ## Claims about the submit flow and the result/error exclusivity -/

/-- Every recipe-panel operation preserves the result/error invariant. -/
lemma recipeStep_inv (s : RecipeState) (op : RecipeOp)
    (h : RecipeResultErrorInv s) : RecipeResultErrorInv (recipeStep s op) := by
  cases op with
  | setInput v => exact h
  | setPrefs v => exact h
  | add =>
    show RecipeResultErrorInv (addIngredient s)
    unfold addIngredient
    split
    · exact h
    · exact h
  | remove i => exact h
  | submit net =>
    show RecipeResultErrorInv (generateRecipe s net).1
    unfold generateRecipe generateRecipeStart
    by_cases h0 : s.ingredients.length = 0
    · rw [if_pos h0]
      intro _
      exact Or.inr rfl
    · rw [if_neg h0]
      cases net with
      | success r =>
        intro _
        exact Or.inl rfl
      | failure =>
        intro hsome
        simp [generateRecipeFinish] at hsome

/-- Every menu-panel operation preserves the result/error invariant. -/
lemma menuStep_inv (s : MenuState) (op : MenuOp)
    (h : MenuResultErrorInv s) : MenuResultErrorInv (menuStep s op) := by
  cases op with
  | setInput v => exact h
  | setName v => exact h
  | add =>
    show MenuResultErrorInv (addMenuItem s)
    unfold addMenuItem
    split
    · exact h
    · exact h
  | remove i => exact h
  | submit net =>
    show MenuResultErrorInv (analyzeMenu s net).1
    unfold analyzeMenu analyzeMenuStart
    by_cases h0 : s.menuItems.length = 0
    · rw [if_pos h0]
      intro _
      exact Or.inr rfl
    · rw [if_neg h0]
      cases net with
      | success r =>
        intro _
        exact Or.inl rfl
      | failure =>
        intro hsome
        simp [analyzeMenuFinish] at hsome

/-- Every reachable recipe-panel state satisfies the result/error invariant. -/
lemma recipeRun_inv (ops : List RecipeOp) : RecipeResultErrorInv (recipeRun ops) := by
  suffices h : ∀ s, RecipeResultErrorInv s →
      RecipeResultErrorInv (ops.foldl recipeStep s) by
    exact h recipeInit (fun _ => Or.inl rfl)
  induction ops with
  | nil => exact fun s hs => hs
  | cons op rest ih => exact fun s hs => ih _ (recipeStep_inv s op hs)

/-- Every reachable menu-panel state satisfies the result/error invariant. -/
lemma menuRun_inv (mops : List MenuOp) : MenuResultErrorInv (menuRun mops) := by
  suffices h : ∀ s, MenuResultErrorInv s →
      MenuResultErrorInv (mops.foldl menuStep s) by
    exact h menuInit (fun _ => Or.inl rfl)
  induction mops with
  | nil => exact fun s hs => hs
  | cons op rest ih => exact fun s hs => ih _ (menuStep_inv s op hs)

/-- C2 is false as stated: the recipe-panel state reached by adding "x",
submitting successfully, removing the item and submitting again is outside
idle/loading (its derived status is error) yet has BOTH the result and the
error message populated, because the empty-items validation error does not
clear the prior result. -/
theorem c2_counterexample :
    (recipeRun c2BadOps).loading = false ∧
    recipeStatus (recipeRun c2BadOps) = .error ∧
    (recipeRun c2BadOps).error ≠ "" ∧
    (recipeRun c2BadOps).recipe.isSome = true := by decide

/-- C2 (amended): in every reachable panel state, whenever the result is
populated the error message is empty or is the local empty-items validation
message; hence outside idle/loading exactly one of result/errorMessage is
populated, except that a validation-failed submit may display its validation
message alongside the prior result.  This exclusivity-up-to-validation is
preserved by every operation (input edits, add, remove, and submit with empty
items, with success or with failure). -/
theorem c2_result_error_exclusive_amended (ops : List RecipeOp)
    (mops : List MenuOp) :
    ((recipeRun ops).recipe.isSome = true →
      (recipeRun ops).error = "" ∨ (recipeRun ops).error = recipeValidationMsg) ∧
    ((menuRun mops).analysis.isSome = true →
      (menuRun mops).error = "" ∨ (menuRun mops).error = menuValidationMsg) :=
  ⟨recipeRun_inv ops, menuRun_inv mops⟩

/-- Witness for the amended C2 at the concrete operation lists of the
counterexample state, where the result is populated. -/
theorem c2_result_error_exclusive_amended_witness :
    (recipeRun c2BadOps).recipe.isSome = true ∧
    ((recipeRun c2BadOps).error = "" ∨
      (recipeRun c2BadOps).error = recipeValidationMsg) ∧
    (menuRun c2BadMenuOps).analysis.isSome = true ∧
    ((menuRun c2BadMenuOps).error = "" ∨
      (menuRun c2BadMenuOps).error = menuValidationMsg) :=
  ⟨by decide,
   (c2_result_error_exclusive_amended c2BadOps c2BadMenuOps).1 (by decide),
   by decide,
   (c2_result_error_exclusive_amended c2BadOps c2BadMenuOps).2 (by decide)⟩

/-- C3: submitting with an empty item collection issues no network call
(the request component is `none`), sets the error to the panel's local
validation message, leaves every other field — the prior displayed result
included — unchanged, and (when the panel was not loading) leaves the derived
status at error. -/
theorem c3_empty_submit (s : RecipeState) (m : MenuState)
    (net : NetOutcome RecipeResponse) (mnet : NetOutcome MenuAnalysisResponse)
    (hs : s.ingredients = []) (hm : m.menuItems = []) :
    generateRecipe s net = ({ s with error := recipeValidationMsg }, none) ∧
    (s.loading = false → recipeStatus (generateRecipe s net).1 = .error) ∧
    analyzeMenu m mnet = ({ m with error := menuValidationMsg }, none) ∧
    (m.loading = false → menuStatus (analyzeMenu m mnet).1 = .error) := by
  have e1 : generateRecipe s net = ({ s with error := recipeValidationMsg }, none) := by
    unfold generateRecipe generateRecipeStart
    rw [if_pos (by simp [hs])]
  have e2 : analyzeMenu m mnet = ({ m with error := menuValidationMsg }, none) := by
    unfold analyzeMenu analyzeMenuStart
    rw [if_pos (by simp [hm])]
  refine ⟨e1, ?_, e2, ?_⟩
  · intro hload
    rw [e1]
    simp [recipeStatus, hload, recipeValidationMsg]
  · intro hload
    rw [e2]
    simp [menuStatus, hload, menuValidationMsg]

/-- Witness for C3 on the initial (empty-collection) states of both panels. -/
theorem c3_empty_submit_witness :
    recipeInit.ingredients = [] ∧ menuInit.menuItems = [] ∧
    recipeInit.loading = false ∧ menuInit.loading = false ∧
    generateRecipe recipeInit .failure
      = ({ recipeInit with error := recipeValidationMsg }, none) ∧
    recipeStatus (generateRecipe recipeInit .failure).1 = .error ∧
    analyzeMenu menuInit .failure
      = ({ menuInit with error := menuValidationMsg }, none) ∧
    menuStatus (analyzeMenu menuInit .failure).1 = .error :=
  ⟨rfl, rfl, rfl, rfl,
   (c3_empty_submit recipeInit menuInit .failure .failure rfl rfl).1,
   (c3_empty_submit recipeInit menuInit .failure .failure rfl rfl).2.1 rfl,
   (c3_empty_submit recipeInit menuInit .failure .failure rfl rfl).2.2.1,
   (c3_empty_submit recipeInit menuInit .failure .failure rfl rfl).2.2.2 rfl⟩

/-- C6: when the submission's network call fails in any way, the panel ends
not loading with the fixed generic error message, the previously displayed
result cleared, and derived status error. -/
theorem c6_failure_state (s : RecipeState) (m : MenuState)
    (hs : s.ingredients ≠ []) (hm : m.menuItems ≠ []) :
    (generateRecipe s .failure).1
      = { s with loading := false, error := recipeFailureMsg, recipe := none } ∧
    (generateRecipe s .failure).1.recipe = none ∧
    recipeStatus (generateRecipe s .failure).1 = .error ∧
    (analyzeMenu m .failure).1
      = { m with loading := false, error := menuFailureMsg, analysis := none } ∧
    (analyzeMenu m .failure).1.analysis = none ∧
    menuStatus (analyzeMenu m .failure).1 = .error := by
  have h0 : ¬ s.ingredients.length = 0 := by simpa using hs
  have h1 : ¬ m.menuItems.length = 0 := by simpa using hm
  have e1 : (generateRecipe s .failure).1
      = { s with loading := false, error := recipeFailureMsg, recipe := none } := by
    unfold generateRecipe generateRecipeStart
    rw [if_neg h0]
    rfl
  have e2 : (analyzeMenu m .failure).1
      = { m with loading := false, error := menuFailureMsg, analysis := none } := by
    unfold analyzeMenu analyzeMenuStart
    rw [if_neg h1]
    rfl
  refine ⟨e1, ?_, ?_, e2, ?_, ?_⟩
  · rw [e1]
  · rw [e1]
    simp [recipeStatus, recipeFailureMsg]
  · rw [e2]
  · rw [e2]
    simp [menuStatus, menuFailureMsg]

/-- Witness for C6 on one-item panels. -/
theorem c6_failure_state_witness :
    oneItemRec.ingredients ≠ [] ∧ oneItemMenu.menuItems ≠ [] ∧
    (generateRecipe oneItemRec .failure).1
      = { oneItemRec with loading := false, error := recipeFailureMsg } ∧
    recipeStatus (generateRecipe oneItemRec .failure).1 = .error ∧
    (analyzeMenu oneItemMenu .failure).1
      = { oneItemMenu with loading := false, error := menuFailureMsg } ∧
    menuStatus (analyzeMenu oneItemMenu .failure).1 = .error :=
  ⟨by decide, by decide,
   ((c6_failure_state oneItemRec oneItemMenu (by decide) (by decide)).1).trans
     (by decide),
   (c6_failure_state oneItemRec oneItemMenu (by decide) (by decide)).2.2.1,
   ((c6_failure_state oneItemRec oneItemMenu (by decide) (by decide)).2.2.2.1).trans
     (by decide),
   (c6_failure_state oneItemRec oneItemMenu (by decide) (by decide)).2.2.2.2.2⟩

/-- C7: with a non-empty collection, the synchronous first half of submit
moves the panel to loading with both the prior result and prior error
cleared, and the whole run issues exactly one POST whose request carries the
panel's fixed URL (host plus the fixed endpoint path) and the RequestPayload
body built from the current state. -/
theorem c7_submit_request (s : RecipeState) (m : MenuState)
    (net : NetOutcome RecipeResponse) (mnet : NetOutcome MenuAnalysisResponse)
    (hs : s.ingredients ≠ []) (hm : m.menuItems ≠ []) :
    (generateRecipeStart s).1 = { s with loading := true, error := "", recipe := none } ∧
    recipeStatus (generateRecipeStart s).1 = .loading ∧
    (generateRecipe s net).2
      = some { url := "http://localhost:8001" ++ "/generate-recipe"
               ingredients := s.ingredients
               dietary_preferences :=
                 if s.dietaryPreferences = "" then none
                 else some s.dietaryPreferences } ∧
    (analyzeMenuStart m).1 = { m with loading := true, error := "", analysis := none } ∧
    menuStatus (analyzeMenuStart m).1 = .loading ∧
    (analyzeMenu m mnet).2
      = some { url := "http://localhost:8001" ++ "/restaurant-analysis"
               menu_items := m.menuItems
               restaurant_name :=
                 some (if m.restaurantName = "" then "Restaurant"
                       else m.restaurantName) } := by
  have h0 : ¬ s.ingredients.length = 0 := by simpa using hs
  have h1 : ¬ m.menuItems.length = 0 := by simpa using hm
  refine ⟨?_, ?_, ?_, ?_, ?_, ?_⟩
  · unfold generateRecipeStart
    rw [if_neg h0]
  · unfold generateRecipeStart
    rw [if_neg h0]
    simp [recipeStatus]
  · unfold generateRecipe generateRecipeStart
    rw [if_neg h0]
  · unfold analyzeMenuStart
    rw [if_neg h1]
  · unfold analyzeMenuStart
    rw [if_neg h1]
    simp [menuStatus]
  · unfold analyzeMenu analyzeMenuStart
    rw [if_neg h1]

/-- Witness for C7 on one-item panels with blank modifier fields. -/
theorem c7_submit_request_witness :
    oneItemRec.ingredients ≠ [] ∧ oneItemMenu.menuItems ≠ [] ∧
    (generateRecipeStart oneItemRec).1
      = { oneItemRec with loading := true } ∧
    recipeStatus (generateRecipeStart oneItemRec).1 = .loading ∧
    (generateRecipe oneItemRec .failure).2 = some recReqW ∧
    (analyzeMenuStart oneItemMenu).1
      = { oneItemMenu with loading := true } ∧
    menuStatus (analyzeMenuStart oneItemMenu).1 = .loading ∧
    (analyzeMenu oneItemMenu .failure).2 = some menuReqW :=
  ⟨by decide, by decide,
   ((c7_submit_request oneItemRec oneItemMenu .failure .failure (by decide)
       (by decide)).1).trans (by decide),
   (c7_submit_request oneItemRec oneItemMenu .failure .failure (by decide)
     (by decide)).2.1,
   ((c7_submit_request oneItemRec oneItemMenu .failure .failure (by decide)
       (by decide)).2.2.1).trans (by decide),
   ((c7_submit_request oneItemRec oneItemMenu .failure .failure (by decide)
       (by decide)).2.2.2.1).trans (by decide),
   (c7_submit_request oneItemRec oneItemMenu .failure .failure (by decide)
     (by decide)).2.2.2.2.1,
   ((c7_submit_request oneItemRec oneItemMenu .failure .failure (by decide)
       (by decide)).2.2.2.2.2).trans (by decide)⟩

/-- C1 is false as stated: submitting the menu panel with a blank (empty
string) restaurant-name modifier sends the substituted literal "Restaurant",
not null/absent. -/
theorem c1_counterexample :
    oneItemMenu.restaurantName = "" ∧
    (analyzeMenuStart oneItemMenu).2 = some menuReqW ∧
    menuReqW.restaurant_name ≠ none := by decide

/-- C1 (amended): on a submission that issues a request, a blank modifier
field is sent as null by the recipe panel (`dietary_preferences = none`), but
the menu panel substitutes the literal string "Restaurant" for a blank
restaurant name (`restaurant_name = some "Restaurant"`), never null. -/
theorem c1_blank_modifier_amended (s : RecipeState) (m : MenuState)
    (req : RecipeRequest) (mreq : MenuRequest)
    (hs : s.dietaryPreferences = "") (hm : m.restaurantName = "")
    (hreq : (generateRecipeStart s).2 = some req)
    (hmreq : (analyzeMenuStart m).2 = some mreq) :
    req.dietary_preferences = none ∧
    mreq.restaurant_name = some "Restaurant" := by
  constructor
  · by_cases h0 : s.ingredients.length = 0
    · rw [generateRecipeStart, if_pos h0] at hreq
      exact absurd hreq (by simp)
    · rw [generateRecipeStart, if_neg h0] at hreq
      simp only [Option.some.injEq] at hreq
      rw [← hreq]
      simp [hs]
  · by_cases h1 : m.menuItems.length = 0
    · rw [analyzeMenuStart, if_pos h1] at hmreq
      exact absurd hmreq (by simp)
    · rw [analyzeMenuStart, if_neg h1] at hmreq
      simp only [Option.some.injEq] at hmreq
      rw [← hmreq]
      simp [hm]

/-- Witness for the amended C1 on one-item panels with blank modifiers. -/
theorem c1_blank_modifier_amended_witness :
    oneItemRec.dietaryPreferences = "" ∧
    oneItemMenu.restaurantName = "" ∧
    (generateRecipeStart oneItemRec).2 = some recReqW ∧
    (analyzeMenuStart oneItemMenu).2 = some menuReqW ∧
    (recReqW.dietary_preferences = none ∧
      menuReqW.restaurant_name = some "Restaurant") :=
  ⟨by decide, by decide, by decide, by decide,
   c1_blank_modifier_amended oneItemRec oneItemMenu recReqW menuReqW
     (by decide) (by decide) (by decide) (by decide)⟩

/-! ## Claims about the score presentation and the result view -/

/-- C8 is false as stated for the menu panel: the fallback icon for a score
outside the recognized set is AlertCircle — the very icon used for "yellow"
(a warning icon) — not an "unknown" icon. -/
theorem c8_counterexample :
    menuGetScoreIcon "purple" = "AlertCircle" ∧
    menuGetScoreIcon "purple" = menuGetScoreIcon "yellow" := by decide

/-- C8 (amended): both panels' score-to-presentation mappings are total
functions with a defined fallback on every unmatched input: both fall back to
the neutral/gray color class; the recipe panel falls back to the "unknown"
icon "❓", while the menu panel falls back to the warning icon AlertCircle
(the same icon it uses for "yellow"); being total functions they never
raise. -/
theorem c8_total_fallback_amended (score : String)
    (h1 : score ≠ "green") (h2 : score ≠ "yellow") (h3 : score ≠ "red") :
    getScoreColor score = "text-gray-600 bg-gray-100" ∧
    getScoreIcon score = "❓" ∧
    menuGetScoreColor score = "text-gray-600 bg-gray-100" ∧
    menuGetScoreIcon score = "AlertCircle" := by
  simp [getScoreColor, getScoreIcon, menuGetScoreColor, menuGetScoreIcon,
    h1, h2, h3]

/-- Witness for the amended C8 at the unrecognized score "unknown". -/
theorem c8_total_fallback_amended_witness :
    "unknown" ≠ "green" ∧ "unknown" ≠ "yellow" ∧ "unknown" ≠ "red" ∧
    (getScoreColor "unknown" = "text-gray-600 bg-gray-100" ∧
      getScoreIcon "unknown" = "❓" ∧
      menuGetScoreColor "unknown" = "text-gray-600 bg-gray-100" ∧
      menuGetScoreIcon "unknown" = "AlertCircle") :=
  ⟨by decide, by decide, by decide,
   c8_total_fallback_amended "unknown" (by decide) (by decide) (by decide)⟩

/-- C9: on the spec's mocked successful response the recipe view renders
exactly the two ingredient entries, the two instruction entries numbered 1
and 2 in order, the eco score "green" as the success color/icon pair and the
health score "yellow" as the warning color/icon pair. -/
theorem c9_mock_render :
    (renderRecipe mockRecipe).ingredientEntries = ["carrot", "broccoli"] ∧
    (renderRecipe mockRecipe).ingredientEntries.length = 2 ∧
    (renderRecipe mockRecipe).instructionEntries = [(1, "Chop"), (2, "Cook")] ∧
    (renderRecipe mockRecipe).instructionEntries.length = 2 ∧
    (renderRecipe mockRecipe).ecoBadge
      = { color := "text-green-600 bg-green-100", icon := "✅" } ∧
    (renderRecipe mockRecipe).healthBadge
      = { color := "text-yellow-600 bg-yellow-100", icon := "⚠️" } := by decide

/-- C10: the recipe panel's score-to-icon mapping assigns the same warning
icon to "red" as to "yellow", so a red score differs from a yellow one only
by color class. -/
theorem c10_red_yellow_icon :
    getScoreIcon "red" = getScoreIcon "yellow" ∧
    getScoreIcon "red" = "⚠️" ∧
    getScoreColor "red" ≠ getScoreColor "yellow" := by decide

end Sunhacks
